import Mathlib

/-!
Verification development for the recruitment system's deterministic
suitability scoring engine (`services/matching_service.py`) and the
rate-limited batch orchestration layer (`services/ai_utils_parallel.py`).

The Python source computes several scores with IEEE-754 double-precision
arithmetic (`int(e / m * 100)`, `int(overall * 0.7)`, ...).  Every double
value reachable in this program is a non-negative dyadic rational, so we
model doubles exactly as pairs `m / 2^s` of naturals together with the
round-to-nearest, ties-to-even rounding step that the hardware applies
after each operation.  Overflow and subnormal behaviour are outside the
range of values this program can produce and are not modelled.
-/

namespace RecruitmentSystem

/-- Fuel-based binary logarithm: `log2fuel fuel n = ⌊log₂ n⌋` for `n ≥ 1`
whenever `fuel ≥ n` (structural recursion so that the kernel can reduce it). -/
def log2fuel : Nat → Nat → Nat
  | 0, _ => 0
  | fuel + 1, n => if 2 ≤ n then log2fuel fuel (n / 2) + 1 else 0

/-- `⌊log₂ n⌋` for `n ≥ 1` (0 at 0). -/
def natLog2 (n : Nat) : Nat := log2fuel n n

/-- Round `num / den` to the nearest integer, ties to even (IEEE default). -/
def roundHalfEvenDiv (num den : Nat) : Nat :=
  let q := num / den
  let r := num % den
  if 2 * r < den then q
  else if den < 2 * r then q + 1
  else if q % 2 = 0 then q else q + 1

/-- Smallest `k` with `b ≤ x * 2^k` (fuel-based search; fuel `b` suffices for `x ≥ 1`). -/
def smallestKAux : Nat → Nat → Nat → Nat
  | 0, _, _ => 0
  | fuel + 1, x, b => if b ≤ x then 0 else smallestKAux fuel (2 * x) b + 1

def smallestK (a b : Nat) : Nat := smallestKAux b a b

/-- A non-negative dyadic rational `m / 2^s`: the exact value of an IEEE double
in the range this program produces. -/
structure Dy where
  m : Nat
  s : Nat
  deriving DecidableEq

namespace Dy

/-- The exact rational value of a dyadic. -/
def val (d : Dy) : ℚ := (d.m : ℚ) / (2 ^ d.s : ℚ)

/-- Round a dyadic to 53 significant bits, ties to even: the IEEE-754 rounding
step applied after every arithmetic operation.  A dyadic whose mantissa already
fits in 53 bits is exactly representable and left unchanged. -/
def roundDy (d : Dy) : Dy :=
  if d.m = 0 then ⟨0, 0⟩
  else
    let L := natLog2 d.m
    if L ≤ 52 then d
    else
      let sh := L - 52
      let n := roundHalfEvenDiv d.m (2 ^ sh)
      if d.s ≤ sh then ⟨n * 2 ^ (sh - d.s), 0⟩ else ⟨n, d.s - sh⟩

/-- Python `a / b` on non-negative ints: correctly rounded double division. -/
def pyDivNat (a b : Nat) : Dy :=
  if a = 0 ∨ b = 0 then ⟨0, 0⟩
  else if b ≤ a then
    let e := natLog2 (a / b)
    if e ≤ 52 then ⟨roundHalfEvenDiv (a * 2 ^ (52 - e)) b, 52 - e⟩
    else ⟨roundHalfEvenDiv a (b * 2 ^ (e - 52)) * 2 ^ (e - 52), 0⟩
  else
    let k := smallestK a b
    ⟨roundHalfEvenDiv (a * 2 ^ (52 + k)) b, 52 + k⟩

/-- Python `d * n`: double times (exactly converted) int, correctly rounded. -/
def pyMulDyNat (d : Dy) (n : Nat) : Dy := roundDy ⟨d.m * n, d.s⟩

/-- Python `n * d` with `n` an int and `d` a double literal. -/
def pyMulNatDy (n : Nat) (d : Dy) : Dy := roundDy ⟨n * d.m, d.s⟩

/-- Python `x + y` on doubles: exact sum, then one rounding. -/
def pyAdd (x y : Dy) : Dy :=
  let s := max x.s y.s
  roundDy ⟨x.m * 2 ^ (s - x.s) + y.m * 2 ^ (s - y.s), s⟩

/-- Python `int(x)` on a non-negative double: truncation toward zero. -/
def pyTruncDy (d : Dy) : Nat := d.m / 2 ^ d.s

end Dy

open Dy

/-- The double nearest to the literal `0.5` (exact). -/
def lit05 : Dy := pyDivNat 1 2

/-- The double nearest to the literal `0.7`. -/
def lit07 : Dy := pyDivNat 7 10

/-- Python `int(x / y * z)` on non-negative ints, the scoring module's
recurring ratio pattern, evaluated in double precision. -/
def pyRatScaled (x y z : Nat) : Nat := pyTruncDy (pyMulDyNat (pyDivNat x y) z)

/-! ## Suitability scoring engine (`services/matching_service.py`) -/

/-- `calculate_experience_score` (matching_service.py lines 10-41).
`int(candidate_experience / min_required * 100)` is double arithmetic. -/
def calculate_experience_score (candidate_experience min_required : Nat)
    (max_required : Option Nat) : Nat :=
  if candidate_experience < min_required then
    if min_required = 0 then 100
    else pyRatScaled candidate_experience min_required 100
  else
    match max_required with
    | none => 100
    | some mx =>
      if candidate_experience ≤ mx then 100
      else
        let excess := candidate_experience - mx
        let penalty := min (excess * 5) 20
        max 80 (100 - penalty)

/-! ### String handling

Python string primitives (`lower`, `strip`, `upper`, substring `in`)
modelled on the character lists underlying `String`.  `lower`/`upper` map
the ASCII and Cyrillic alphabetic ranges, which covers every string this
module compares. -/

/-- Python `str.lower` on one character (ASCII and Cyrillic ranges). -/
def pyCharLower (c : Char) : Char :=
  if 'A' ≤ c ∧ c ≤ 'Z' then Char.ofNat (c.toNat + 32)
  else if 0x410 ≤ c.toNat ∧ c.toNat ≤ 0x42F then Char.ofNat (c.toNat + 0x20)
  else if c.toNat = 0x401 then Char.ofNat 0x451
  else c

/-- Python `str.upper` on one character (ASCII and Cyrillic ranges). -/
def pyCharUpper (c : Char) : Char :=
  if 'a' ≤ c ∧ c ≤ 'z' then Char.ofNat (c.toNat - 32)
  else if 0x430 ≤ c.toNat ∧ c.toNat ≤ 0x44F then Char.ofNat (c.toNat - 0x20)
  else if c.toNat = 0x451 then Char.ofNat 0x401
  else c

def pyLower (s : String) : String := ⟨s.data.map pyCharLower⟩

def pyUpper (s : String) : String := ⟨s.data.map pyCharUpper⟩

/-- The whitespace characters removed by Python `str.strip()`. -/
def pyIsSpace (c : Char) : Bool :=
  c = ' ' ∨ c = '\t' ∨ c = '\n' ∨ c = '\r' ∨ c = '\x0b' ∨ c = '\x0c'

def pyStrip (s : String) : String :=
  ⟨((s.data.dropWhile pyIsSpace).reverse.dropWhile pyIsSpace).reverse⟩

/-- Boolean prefix test on character lists. -/
def listPrefixOf : List Char → List Char → Bool
  | [], _ => true
  | _ :: _, [] => false
  | a :: as, b :: bs => a = b && listPrefixOf as bs

/-- Boolean contiguous-sublist test on character lists. -/
def listInfixOf (needle : List Char) : List Char → Bool
  | [] => needle.isEmpty
  | b :: bs => listPrefixOf needle (b :: bs) || listInfixOf needle bs

/-- Python `sub in hay` on strings: substring containment. -/
def pyIn (sub hay : String) : Bool := listInfixOf sub.data hay.data

/-- The normalisation `s.lower().strip()` applied to every skill label
before comparison (matching_service.py lines 140-142, 149, 163, 192, 196). -/
def normSkill (s : String) : String := pyStrip (pyLower s)

/-! ### Scoring subroutines -/

/-- A Python `datetime.date`. -/
structure PyDate where
  year : Nat
  month : Nat
  day : Nat
  deriving DecidableEq

/-- `calculate_age_score` (matching_service.py lines 44-75).  `today` is the
value of `date.today()` at the moment of evaluation, made an explicit input
of the model. -/
def calculate_age_score (birth_date : Option PyDate) (min_age max_age : Option Int)
    (today : PyDate) : Nat :=
  if min_age = none ∧ max_age = none then 100
  else
    match birth_date with
    | none => 0
    | some b =>
      let age : Int := (today.year : Int) - (b.year : Int) -
        (if today.month < b.month ∨ (today.month = b.month ∧ today.day < b.day)
         then 1 else 0)
      if (match min_age with | some m => decide (age < m) | none => false) then 0
      else if (match max_age with | some m => decide (m < age) | none => false) then 0
      else 100

/-- Higher-education keywords (matching_service.py lines 112, 118). -/
def higherEdWords : List String := ["университет", "институт", "university", "высшее"]

/-- `calculate_education_score` (matching_service.py lines 78-121).
A present-but-empty `education_level` is falsy in Python and takes the
generic higher-education branch, exactly as `if education_level:` does. -/
def calculate_education_score (candidate_education : Option String)
    (education_required : Bool) (education_level : Option String) : Nat :=
  if !education_required then 100
  else
    match candidate_education with
    | none => 0
    | some edu =>
      if edu = "" then 0
      else
        let education_lower := pyLower edu
        let genericBranch : Nat :=
          if higherEdWords.any (fun w => pyIn w education_lower) then 100 else 30
        match education_level with
        | none => genericBranch
        | some level =>
          if level = "" then genericBranch
          else
            let keywords : List String :=
              if level = "Бакалавр" then ["бакалавр", "bachelor"]
              else if level = "Магистр" then ["магистр", "master"]
              else if level = "Специалист" then ["специалист", "specialist"]
              else []
            if keywords.any (fun k => pyIn k education_lower) then 100
            else if higherEdWords.any (fun w => pyIn w education_lower) then 70
            else 30

/-- `calculate_technical_skills_score` (matching_service.py lines 124-174).
Returns `(score, matched_required ++ matched_optional, missing_required)`.
Skill comparison is list membership of the normalised label. -/
def calculate_technical_skills_score (candidate_skills required_skills
    optional_skills : List String) : Nat × List String × List String :=
  let candidate_skills_lower := candidate_skills.map normSkill
  let matched_required := required_skills.filter
    (fun s => normSkill s ∈ candidate_skills_lower)
  let missing_required := required_skills.filter
    (fun s => normSkill s ∉ candidate_skills_lower)
  let base_score : Nat :=
    if required_skills.length = 0 then 100
    else pyRatScaled matched_required.length required_skills.length 100
  let matched_optional := optional_skills.filter
    (fun s => normSkill s ∈ candidate_skills_lower)
  let final_score : Nat :=
    if 0 < optional_skills.length then
      min 100 (base_score + pyRatScaled matched_optional.length optional_skills.length 20)
    else base_score
  (final_score, matched_required ++ matched_optional, missing_required)

/-- `calculate_soft_skills_score` (matching_service.py lines 177-201). -/
def calculate_soft_skills_score (candidate_soft_skills
    required_soft_skills : List String) : Nat × List String :=
  if required_soft_skills = [] then (100, [])
  else
    let candidate_lower := candidate_soft_skills.map normSkill
    let matched := required_soft_skills.filter (fun s => normSkill s ∈ candidate_lower)
    (pyRatScaled matched.length required_soft_skills.length 100, matched)

/-- Ordered CEFR levels (matching_service.py line 210). -/
def levelsList : List String := ["A1", "A2", "B1", "B2", "C1", "C2"]

/-- `compare_language_level` (matching_service.py lines 204-217); an unknown
level raises `ValueError` in the source, caught and turned into `False`. -/
def compare_language_level (candidate_level required_level : String) : Bool :=
  match levelsList.indexOf? (pyUpper candidate_level),
        levelsList.indexOf? (pyUpper required_level) with
  | some ci, some ri => ri ≤ ci
  | _, _ => false

/-- A candidate-language entry `{"language": ..., "level": ...}`; a missing
level defaults to `"A1"` via `cand_lang.get('level', 'A1')`. -/
structure LangEntry where
  language : String
  level : Option String
  deriving DecidableEq

/-- A required-language entry `{"language": ..., "min_level": ...}`. -/
structure ReqLang where
  language : String
  min_level : String
  deriving DecidableEq

/-- `calculate_language_score` (matching_service.py lines 220-253).  The inner
Python loop appends and breaks at the first candidate entry whose name matches
(substring in either direction) with a sufficient level, i.e. `List.find?`. -/
def calculate_language_score (candidate_languages : List LangEntry)
    (required_languages : List ReqLang) : Nat × List String :=
  if required_languages = [] then (100, [])
  else
    let matched := required_languages.filterMap (fun req =>
      let req_name := pyStrip (pyLower req.language)
      (candidate_languages.find? (fun cand =>
        let cand_name := pyStrip (pyLower cand.language)
        (pyIn req_name cand_name || pyIn cand_name req_name) &&
          compare_language_level (cand.level.getD "A1") req.min_level)).map
        (fun cand => req.language ++ " (" ++ cand.level.getD "A1" ++ ")"))
    (pyRatScaled matched.length required_languages.length 100, matched)

/-! ### The deterministic matching entry point -/

/-- A candidate profile (`models/dao.py` `Resume`), restricted to the fields
read by the scoring engine; nullable columns are `Option`. -/
structure Resume where
  experience_years : Option Nat
  birth_date : Option PyDate
  education : Option String
  technical_skills : Option (List String)
  soft_skills : Option (List String)
  languages : Option (List LangEntry)
  ai_summary : Option String
  ai_strengths : Option (List String)
  ai_weaknesses : Option (List String)

/-- Position criteria (`models/dao.py` `Vacancy`), restricted to the fields
read by the scoring engine. -/
structure Vacancy where
  min_experience_years : Nat
  max_experience_years : Option Nat
  min_age : Option Int
  max_age : Option Int
  education_required : Bool
  education_level : Option String
  required_technical_skills : Option (List String)
  optional_technical_skills : Option (List String)
  required_soft_skills : Option (List String)
  required_languages : Option (List ReqLang)
  weight_experience : Nat
  weight_technical_skills : Nat
  weight_soft_skills : Nat
  weight_languages : Nat

/-- The dictionary returned by `match_candidate_to_vacancy_deterministic`. -/
structure MatchOutput where
  overall_score : Nat
  experience_score : Nat
  technical_skills_score : Nat
  soft_skills_score : Nat
  language_score : Nat
  education_score : Nat
  age_score : Nat
  matched_technical_skills : List String
  missing_technical_skills : List String
  matched_soft_skills : List String
  matched_languages : List String
  ai_summary : Option String
  ai_strengths : List String
  ai_weaknesses : List String
  deriving DecidableEq

/-- `match_candidate_to_vacancy_deterministic` (matching_service.py lines
256-343).  `today` is the ambient `date.today()` read inside
`calculate_age_score`, made explicit.  Python's `x or default` on the
nullable list/int fields is `Option.getD` (`[]`/`0` map to themselves).
The weighted sum `int(a*w/100 + ...)` and the two penalty steps
`int(s * 0.5)`, `int(s * 0.7)` are double-precision arithmetic. -/
def match_candidate_to_vacancy_deterministic (resume : Resume) (vacancy : Vacancy)
    (today : PyDate) : MatchOutput :=
  let experience_score := calculate_experience_score (resume.experience_years.getD 0)
    vacancy.min_experience_years vacancy.max_experience_years
  let age_score := calculate_age_score resume.birth_date vacancy.min_age
    vacancy.max_age today
  let education_score := calculate_education_score resume.education
    vacancy.education_required vacancy.education_level
  let tech := calculate_technical_skills_score (resume.technical_skills.getD [])
    (vacancy.required_technical_skills.getD []) (vacancy.optional_technical_skills.getD [])
  let soft := calculate_soft_skills_score (resume.soft_skills.getD [])
    (vacancy.required_soft_skills.getD [])
  let lang := calculate_language_score (resume.languages.getD [])
    (vacancy.required_languages.getD [])
  let overall0 := pyTruncDy (pyAdd (pyAdd (pyAdd
    (pyDivNat (experience_score * vacancy.weight_experience) 100)
    (pyDivNat (tech.1 * vacancy.weight_technical_skills) 100))
    (pyDivNat (soft.1 * vacancy.weight_soft_skills) 100))
    (pyDivNat (lang.1 * vacancy.weight_languages) 100))
  let overall1 := if age_score = 0 then pyTruncDy (pyMulNatDy overall0 lit05) else overall0
  let overall2 := if education_score < 50 ∧ vacancy.education_required then
      pyTruncDy (pyMulNatDy overall1 lit07)
    else overall1
  { overall_score := max 0 (min 100 overall2)
    experience_score := experience_score
    technical_skills_score := tech.1
    soft_skills_score := soft.1
    language_score := lang.1
    education_score := education_score
    age_score := age_score
    matched_technical_skills := tech.2.1
    missing_technical_skills := tech.2.2
    matched_soft_skills := soft.2
    matched_languages := lang.2
    ai_summary := resume.ai_summary
    ai_strengths := resume.ai_strengths.getD []
    ai_weaknesses := resume.ai_weaknesses.getD [] }

/-! ## Rate-limited batch orchestration (`services/ai_utils_parallel.py`) -/

/-- A cyclic pool (`itertools.cycle` over a fixed list) modelled as the
immutable entry list plus the shared cursor advanced on every `next()`. -/
structure Pool where
  entries : List String
  cursor : Nat
  deriving DecidableEq

/-- One `next()` call (ai_utils_parallel.py lines 52-59): return the entry at
the cursor (mod pool size) and advance the shared cursor. -/
def Pool.next (p : Pool) : String × Pool :=
  (p.entries.getD (p.cursor % p.entries.length) "", ⟨p.entries, p.cursor + 1⟩)

/-- The pool state after `k` sequential `next()` calls. -/
def Pool.afterCalls (p : Pool) : Nat → Pool
  | 0 => p
  | k + 1 => ((p.afterCalls k).next).2

/-- The value returned by the `(k+1)`-th sequential `next()` call. -/
def Pool.outputAt (p : Pool) (k : Nat) : String := ((p.afterCalls k).next).1

/-- `API_KEYS` filtering (ai_utils_parallel.py lines 21-28): drop unset
environment variables and keys that are empty or whitespace-only
(`if key and key.strip()`). -/
def loadApiKeys (apiKeyEnvs : List (Option String)) : List String :=
  (apiKeyEnvs.filterMap id).filter (fun k => k ≠ "" ∧ pyStrip k ≠ "")

/-- `PROXIES` parsing (ai_utils_parallel.py lines 31-40): split the `PROXIES`
environment value on newlines, keep lines with at least three `*`-separated
parts, and build `http://user:pass@ip_port`. -/
def parseProxies (proxyStr : String) : List String :=
  if proxyStr = "" then []
  else
    ((pyStrip proxyStr).splitOn "\n").filterMap (fun line =>
      let parts := line.splitOn "*"
      if 3 ≤ parts.length then
        some ("http://" ++ pyStrip (parts.getD 1 "") ++ ":" ++
          pyStrip (parts.getD 2 "") ++ "@" ++ pyStrip (parts.getD 0 ""))
      else none)

/-- Module initialisation (ai_utils_parallel.py lines 21-49): load both pools;
`raise ValueError` when no valid API key survives filtering;
`proxy_pool = cycle(PROXIES) if PROXIES else None` when the proxy list is
empty. -/
def moduleInit (apiKeyEnvs : List (Option String)) (proxyStr : String) :
    Except String (Pool × Option Pool) :=
  let apiKeys := loadApiKeys apiKeyEnvs
  let proxies := parseProxies proxyStr
  if apiKeys = [] then .error "Не найдено ни одного валидного API ключа!"
  else .ok (⟨apiKeys, 0⟩, if proxies = [] then none else some ⟨proxies, 0⟩)

/-! ### One batch dispatch with the retry loop -/

/-- What one request attempt of `parse_resume_batch_with_deepseek` produced:
an HTTP error status raised by `raise_for_status` (429 = throttled), a
network-level request error, non-JSON content (`json.loads` raises), or a
parsed payload. -/
inductive AttemptOutcome (α : Type) where
  | statusError (code : Nat)
  | requestError
  | malformed
  | ok (payload : α)
  deriving DecidableEq

/-- The observable result of the dispatch: a payload, or a raised exception,
together with the ordered list of backoff delays slept (in seconds).  The
per-attempt jitter `random.uniform(1, 3)` is independent of control flow and
is not recorded.  `fellThrough` is Python's implicit `None` return when the
`for` loop body never runs (only possible with `retry_count = 0`). -/
inductive DispatchResult (α : Type) where
  | success (payload : α) (delays : List Nat)
  | failure (delays : List Nat)
  | fellThrough (delays : List Nat)
  deriving DecidableEq

/-- The `for attempt in range(retry_count)` loop of
`parse_resume_batch_with_deepseek` (ai_utils_parallel.py lines 124-169):
a 429 on attempt `attempt` sleeps `(attempt + 1) * 10` and retries unless it
was the last attempt, in which case the error is re-raised; any other
outcome returns or raises at once.  `remaining` is the structural fuel
`retry_count - attempt`. -/
def attemptLoopGo (outcomes : Nat → AttemptOutcome α) (retryCount : Nat) :
    Nat → Nat → List Nat → DispatchResult α
  | 0, _, delays => .fellThrough delays
  | remaining + 1, attempt, delays =>
    match outcomes attempt with
    | .ok p => .success p delays
    | .statusError code =>
      if code = 429 then
        let wait := (attempt + 1) * 10
        if attempt = retryCount - 1 then .failure (delays ++ [wait])
        else attemptLoopGo outcomes retryCount remaining (attempt + 1) (delays ++ [wait])
      else .failure delays
    | .requestError => .failure delays
    | .malformed => .failure delays

/-- `parse_resume_batch_with_deepseek` viewed through its network oracle:
`outcomes k` is what the `k`-th request attempt produced. -/
def parse_resume_batch_with_deepseek (outcomes : Nat → AttemptOutcome α)
    (retryCount : Nat) : DispatchResult α :=
  attemptLoopGo outcomes retryCount retryCount 0 []

/-! ### Batch planning and result aggregation -/

/-- Fuel-based chunking; fuel `items.length` suffices for `bs ≥ 1`. -/
def splitBatchesAux (bs : Nat) : Nat → List α → List (List α)
  | _, [] => []
  | 0, _ => []
  | fuel + 1, a :: items => (a :: items).take bs :: splitBatchesAux bs fuel ((a :: items).drop bs)

/-- The batch planner `for i in range(0, len(items), batch_size)` slicing
(ai_utils_parallel.py lines 192-195 and 362-366).  `batch_size = 0` raises
`ValueError` in Python and yields `[]` here (never reached: callers pass 4). -/
def splitIntoBatches (items : List α) (bs : Nat) : List (List α) :=
  if bs = 0 then [] else splitBatchesAux bs items.length items

/-- Python `enumerate(l, start)`. -/
def pyEnumerate (start : Nat) : List α → List (Nat × α)
  | [] => []
  | a :: l => (start, a) :: pyEnumerate (start + 1) l

/-- The merge loop of `parse_resumes_with_deepseek_parallel` (lines 222-237):
walk the per-batch dicts in task order and re-key every record as
`resume{counter}` with a single global counter.  A record is `(counter, value)`. -/
def mergeResumesGo : List (List ρ) → Nat → List (Nat × ρ)
  | [], _ => []
  | b :: rest, c => pyEnumerate c b ++ mergeResumesGo rest (c + b.length)

/-- `process_batch_with_semaphore` error handling (lines 202-212): a batch
whose dispatch raised contributes the empty dict `{}`. -/
def processBatchCaught (outcome : Except String (List ρ)) : List ρ :=
  match outcome with
  | .ok rs => rs
  | .error _ => []

/-- `parse_resumes_with_deepseek_parallel` (lines 172-239) through its
network oracle: `outcomes i` is the result of dispatching batch `i` (the
payload is the batch's record values in dict order, or the exception it
raised).  `asyncio.gather` returns results in task-submission order, so the
merge walks batches in planning order. -/
def parse_resumes_with_deepseek_parallel (texts : List τ) (bs : Nat)
    (outcomes : Nat → Except String (List ρ)) : List (Nat × ρ) :=
  let batches := splitIntoBatches texts bs
  let results := (pyEnumerate 0 batches).map (fun p => processBatchCaught (outcomes p.1))
  mergeResumesGo results 1

/-- The result-association loop of `match_candidate_to_vacancy_batch`
(lines 317-334): for the `i`-th candidate of the batch (1-based), emit
`(candidate_id, record)` when the response contains key `candidate_{i}`.
The response is modelled as the partial map `resp` from that 1-based index
to the (validated) record; the in-place clamping of the four score fields
transforms the record and never its key, and is folded into `resp`. -/
def match_candidate_to_vacancy_batch (batch : List (Nat × δ))
    (resp : Nat → Option μ) : List (Nat × μ) :=
  (pyEnumerate 1 batch).filterMap (fun p => (resp p.1).map (fun r => (p.2.1, r)))

/-- `process_match_batch_with_semaphore` error handling (lines 371-380): a
failed batch contributes `[]`. -/
def processMatchBatchCaught (batch : List (Nat × δ))
    (outcome : Except String (Nat → Option μ)) : List (Nat × μ) :=
  match outcome with
  | .ok resp => match_candidate_to_vacancy_batch batch resp
  | .error _ => []

/-- `match_candidates_to_vacancy_parallel` (lines 341-400) through its
network oracle: `outcomes i` is batch `i`'s response map or its exception;
the aggregation `all_matches.extend(batch_result)` walks batches in
task-submission order. -/
def match_candidates_to_vacancy_parallel (cands : List (Nat × δ)) (bs : Nat)
    (outcomes : Nat → Except String (Nat → Option μ)) : List (Nat × μ) :=
  let batches := splitIntoBatches cands bs
  ((pyEnumerate 0 batches).map (fun p => processMatchBatchCaught p.2 (outcomes p.1))).flatten

/-- `parse_resumes_with_deepseek_extended` (ai_utils_parallel.py lines
404-413): with at most 4 input texts it calls
`parse_resume_batch_with_deepseek` directly — outside any
exception-catching aggregation, so a batch failure is re-raised to the
caller; with more it delegates to the parallel path (default batch size 4).
The re-raised exception's identity is abstracted to an opaque error value;
a success's dict is returned under its 1-based `resume{i}` keys.  The
`fellThrough` arm (Python's implicit `None` at `retry_count = 0`) is
unreachable at the ceiling 3 used here and is folded into the error case. -/
def parse_resumes_with_deepseek_extended (texts : List τ)
    (attempts : Nat → AttemptOutcome (List ρ))
    (outcomes : Nat → Except String (List ρ)) : Except String (List (Nat × ρ)) :=
  if texts.length ≤ 4 then
    match parse_resume_batch_with_deepseek attempts 3 with
    | .success rs _ => .ok (pyEnumerate 1 rs)
    | _ => .error "exception re-raised by parse_resume_batch_with_deepseek"
  else
    .ok (parse_resumes_with_deepseek_parallel texts 4 outcomes)

/-! ### The concurrency limiter as a transition system

`asyncio.Semaphore(max_concurrent)` with `async with semaphore:` wrapped
around each batch's entire dispatch (lines 199-212, 369-380): a batch task
is `queued` until it acquires a permit, `dispatched` (in flight) while it
holds it, and `done` once it releases it. -/

inductive JobStatus where
  | queued
  | dispatched
  | done
  deriving DecidableEq

/-- The dispatcher's observable state: one status per batch task plus the
semaphore's free-permit count. -/
structure DispatcherState where
  jobs : List JobStatus
  sem : Nat
  deriving DecidableEq

/-- All batches pending, all permits free. -/
def initState (n maxConcurrent : Nat) : DispatcherState :=
  ⟨List.replicate n .queued, maxConcurrent⟩

/-- Interleaving steps: a queued task may acquire a free permit and become
dispatched; a dispatched task may finish (successfully or not) and release
its permit.  `asyncio.Semaphore` blocks acquisition at zero permits. -/
inductive DStep : DispatcherState → DispatcherState → Prop
  | start (s : DispatcherState) (j : Nat) (h : s.jobs.get? j = some .queued)
      (hs : 0 < s.sem) : DStep s ⟨s.jobs.set j .dispatched, s.sem - 1⟩
  | finish (s : DispatcherState) (j : Nat) (h : s.jobs.get? j = some .dispatched) :
      DStep s ⟨s.jobs.set j .done, s.sem + 1⟩

/-- States reachable from a given initial state. -/
inductive DReachable (init : DispatcherState) : DispatcherState → Prop
  | refl : DReachable init init
  | step {s s' : DispatcherState} : DReachable init s → DStep s s' → DReachable init s'

/-- Number of batch tasks currently in flight. -/
def dispatchedCount (s : DispatcherState) : Nat :=
  s.jobs.countP (fun st => st = .dispatched)

end RecruitmentSystem


namespace RecruitmentSystem

open Dy

/-! ## Concrete inputs used by the example and counterexample theorems -/

/-- An arbitrary evaluation date for pairs with no age constraint. -/
def exDate : PyDate := ⟨2025, 1, 1⟩

/-- Candidate with 2 years of experience, two of three required technical
skills and two of three required soft skills. -/
def c1Resume : Resume :=
  { experience_years := some 2, birth_date := none, education := none,
    technical_skills := some ["a", "b"], soft_skills := some ["x", "y"],
    languages := none, ai_summary := none, ai_strengths := none,
    ai_weaknesses := none }

/-- Vacancy with weights 30/40/20/10, min experience 4, three required
technical skills and no other constraint: subscores 50/66/100/100. -/
def c1VacancyBase : Vacancy :=
  { min_experience_years := 4, max_experience_years := none, min_age := none,
    max_age := none, education_required := false, education_level := none,
    required_technical_skills := some ["a", "b", "c"],
    optional_technical_skills := none, required_soft_skills := none,
    required_languages := none, weight_experience := 30,
    weight_technical_skills := 40, weight_soft_skills := 20,
    weight_languages := 10 }

/-- Same vacancy but also requiring three soft skills, of which `c1Resume`
has two: subscores 50/66/66/100, weighted sum exactly 64.6. -/
def c1VacancySoft : Vacancy :=
  { c1VacancyBase with required_soft_skills := some ["x", "y", "z"] }

/-- The overall-score combination as the amended claim states it: truncating
double-precision weighted sum, then a truncating `* 0.5` age penalty, then a
truncating `* 0.7` education penalty, clamped to `[0, 100]`. -/
def overallFromSubscores (exp tech soft lang age edu : Nat) (v : Vacancy) : Nat :=
  let base := pyTruncDy (pyAdd (pyAdd (pyAdd
    (pyDivNat (exp * v.weight_experience) 100)
    (pyDivNat (tech * v.weight_technical_skills) 100))
    (pyDivNat (soft * v.weight_soft_skills) 100))
    (pyDivNat (lang * v.weight_languages) 100))
  let afterAge := if age = 0 then pyTruncDy (pyMulNatDy base lit05) else base
  let afterEdu := if edu < 50 ∧ v.education_required then
      pyTruncDy (pyMulNatDy afterAge lit07)
    else afterAge
  max 0 (min 100 afterEdu)

/-- Candidate born 2000-06-15. -/
def c9Resume : Resume :=
  { experience_years := some 1, birth_date := some ⟨2000, 6, 15⟩,
    education := none, technical_skills := none, soft_skills := none,
    languages := none, ai_summary := none, ai_strengths := none,
    ai_weaknesses := none }

/-- Vacancy requiring minimum age 25, all weight on experience. -/
def c9Vacancy : Vacancy :=
  { min_experience_years := 0, max_experience_years := none,
    min_age := some 25, max_age := none, education_required := false,
    education_level := none, required_technical_skills := none,
    optional_technical_skills := none, required_soft_skills := none,
    required_languages := none, weight_experience := 100,
    weight_technical_skills := 0, weight_soft_skills := 0,
    weight_languages := 0 }

/-- The same vacancy with the age bound removed. -/
def c9VacancyNoAge : Vacancy := { c9Vacancy with min_age := none }

/-- Network oracle: the first of two batches raises, the second returns the
records of original items 4..7. -/
def c2Oracle : Nat → Except String (List Nat) :=
  fun i => if i = 0 then .error "rate limit" else .ok [4, 5, 6, 7]

/-- Network oracle for the isolation witness. -/
def c6Oracle : Nat → Except String (List Nat) :=
  fun i => if i = 0 then .error "boom" else .ok [40, 50, 60, 70]

/-- An always-throttled request sequence. -/
def c3Oracle : Nat → AttemptOutcome Nat := fun _ => .statusError 429

/-! ## Helper lemmas -/

lemma pyEnumerate_map_snd (l : List α) : ∀ n, (pyEnumerate n l).map Prod.snd = l := by
  induction l with
  | nil => intro n; rfl
  | cons a t ih => intro n; simp [pyEnumerate, ih]

lemma snd_mem_of_mem_pyEnumerate {l : List α} {p : Nat × α} :
    ∀ {n}, p ∈ pyEnumerate n l → p.2 ∈ l := by
  induction l with
  | nil => intro n h; cases h
  | cons a t ih =>
    intro n h
    rcases List.mem_cons.mp h with h | h
    · subst h; simp
    · exact List.mem_cons_of_mem a (ih h)

lemma splitBatchesAux_flatten {bs : Nat} (hbs : 0 < bs) :
    ∀ (fuel : Nat) (l : List α), l.length ≤ fuel →
      (splitBatchesAux bs fuel l).flatten = l := by
  intro fuel
  induction fuel with
  | zero =>
    intro l hl
    cases l with
    | nil => rfl
    | cons a t => simp at hl
  | succ fuel ih =>
    intro l hl
    cases l with
    | nil => rfl
    | cons a t =>
      have hdrop : ((a :: t).drop bs).length ≤ fuel := by
        simp only [List.length_drop, List.length_cons]
        simp only [List.length_cons] at hl
        omega
      simp only [splitBatchesAux, List.flatten_cons, ih _ hdrop,
        List.take_append_drop]

lemma splitIntoBatches_flatten {bs : Nat} (hbs : 0 < bs) (l : List α) :
    (splitIntoBatches l bs).flatten = l := by
  unfold splitIntoBatches
  rw [if_neg (Nat.pos_iff_ne_zero.mp hbs)]
  exact splitBatchesAux_flatten hbs _ l le_rfl

lemma mergeResumesGo_map_snd : ∀ (bss : List (List ρ)) (c : Nat),
    (mergeResumesGo bss c).map Prod.snd = bss.flatten := by
  intro bss
  induction bss with
  | nil => intro c; rfl
  | cons b rest ih =>
    intro c
    simp [mergeResumesGo, pyEnumerate_map_snd, ih]

lemma mergeResumesGo_length (bss : List (List ρ)) (c : Nat) :
    (mergeResumesGo bss c).length = bss.flatten.length := by
  have h := congrArg List.length (mergeResumesGo_map_snd bss c)
  simpa using h

lemma flatten_pyEnumerateMap_length_le (g : Nat → List ρ) :
    ∀ (l : List (List α)) (n : Nat),
      (∀ p ∈ pyEnumerate n l, (g p.1).length ≤ p.2.length) →
      (((pyEnumerate n l).map (fun p => g p.1)).flatten).length ≤ l.flatten.length := by
  intro l
  induction l with
  | nil => intro n h; simp [pyEnumerate]
  | cons b t ih =>
    intro n h
    have hb : (g n).length ≤ b.length := h (n, b) (by simp [pyEnumerate])
    have ht := ih (n + 1) (fun p hp => h p (by simp [pyEnumerate, hp]))
    simp only [pyEnumerate, List.map_cons, List.flatten_cons, List.length_append]
    omega

/-! ## Claims -/

/-- C4, counterexample: the spec asserts the under-experience branch returns
`floor(e / min * 100)`; at `e = 29`, `min = 50` the code's double-precision
`int(29 / 50 * 100)` evaluates `29/50*100` to `57.99999999999999` and returns
57, while `⌊29 * 100 / 50⌋ = 58`. -/
theorem c4_counterexample :
    calculate_experience_score 29 50 none = 57 ∧ 29 * 100 / 50 = 58 := by
  constructor
  · decide
  · decide

/-- C4, amended: `calculate_experience_score` returns the double-precision
truncation `int(e / min * 100)` when `e < min` (which can be one below the
exact `⌊e·100/min⌋`), 100 when `min ≤ e` and no maximum is set, 100 when
`min ≤ e ≤ max`, and `max(80, 100 - min(5*(e - max), 20))` when `e > max`;
in particular `(2, 4, None) ↦ 50`, `(5, 3, 10) ↦ 100`, `(12, 3, 10) ↦ 90`. -/
theorem c4_experience_characterisation (e mn : Nat) (mx : Option Nat) :
    (e < mn → calculate_experience_score e mn mx = pyRatScaled e mn 100) ∧
    (mn ≤ e → mx = none → calculate_experience_score e mn mx = 100) ∧
    (∀ m, mx = some m → mn ≤ e → e ≤ m →
      calculate_experience_score e mn mx = 100) ∧
    (∀ m, mx = some m → mn ≤ e → m < e →
      calculate_experience_score e mn mx = max 80 (100 - min (5 * (e - m)) 20)) ∧
    calculate_experience_score 2 4 none = 50 ∧
    calculate_experience_score 5 3 (some 10) = 100 ∧
    calculate_experience_score 12 3 (some 10) = 90 := by
  refine ⟨?_, ?_, ?_, ?_, by decide, by decide, by decide⟩
  · intro h
    have hmn : mn ≠ 0 := by omega
    simp [calculate_experience_score, h, hmn]
  · intro h hmx
    subst hmx
    simp [calculate_experience_score, Nat.not_lt.mpr h]
  · intro m hmx h hle
    subst hmx
    simp [calculate_experience_score, Nat.not_lt.mpr h, hle]
  · intro m hmx h hgt
    subst hmx
    simp only [calculate_experience_score, Nat.not_lt.mpr h, if_false]
    rw [if_neg (by omega)]
    rw [Nat.mul_comm]

/-- C4 witness: the characterisation applied at `(2, 4, none)`. -/
theorem c4_witness : calculate_experience_score 2 4 none = pyRatScaled 2 4 100 :=
  (c4_experience_characterisation 2 4 none).1 (by decide)

/-- C5, counterexample: the spec asserts startup fails fatally when either
pool is empty, but module initialisation succeeds with a valid API key and an
empty `PROXIES` value — the empty egress pool merely yields `proxy_pool = None`. -/
theorem c5_counterexample :
    moduleInit [some "k"] "" = .ok (⟨["k"], 0⟩, none) ∧ parseProxies "" = [] :=
  ⟨rfl, rfl⟩

/-- C5, amended: module initialisation fails fatally iff the credential pool
is configured empty (after filtering out unset/blank keys); the egress pool
may be empty, in which case proxying is simply disabled. -/
theorem c5_startup_guard (apiKeyEnvs : List (Option String)) (proxyStr : String) :
    (moduleInit apiKeyEnvs proxyStr).isOk = true ↔ loadApiKeys apiKeyEnvs ≠ [] := by
  by_cases h : loadApiKeys apiKeyEnvs = [] <;>
    simp [moduleInit, h, Except.isOk, Except.toBool]

/-- Cursor bookkeeping: `k` sequential `next()` calls advance the shared
cursor by `k` and never change the entry list. -/
lemma pool_afterCalls (xs : List String) (c : Nat) :
    ∀ k, Pool.afterCalls ⟨xs, c⟩ k = ⟨xs, c + k⟩ := by
  intro k
  induction k with
  | zero => rfl
  | succ k ih => simp [Pool.afterCalls, ih, Pool.next, Nat.add_assoc]

lemma pool_outputAt (xs : List String) (k : Nat) :
    Pool.outputAt ⟨xs, 0⟩ k = xs.getD (k % xs.length) "" := by
  simp [Pool.outputAt, pool_afterCalls, Pool.next]

/-- C7: starting from a fresh pool of size `N`, the first `N` `next()` calls
return the entries in order — every entry exactly once before any repeat —
and call `N + k` returns the same entry as call `k`. -/
theorem c7_round_robin (xs : List String) (h : xs ≠ []) :
    (List.range xs.length).map (Pool.outputAt ⟨xs, 0⟩) = xs ∧
    ∀ k, Pool.outputAt ⟨xs, 0⟩ (xs.length + k) = Pool.outputAt ⟨xs, 0⟩ k := by
  constructor
  · apply List.ext_getElem
    · simp
    · intro i hi hlen
      have hil : i < xs.length := by simpa using hlen
      simp only [List.getElem_map, List.getElem_range, pool_outputAt]
      rw [Nat.mod_eq_of_lt hil, List.getD_eq_getElem _ _ hil]
  · intro k
    simp [pool_outputAt, Nat.add_mod_left]

/-- C7 witness: a pool of three entries visits all three then repeats. -/
theorem c7_witness :
    (List.range 3).map (Pool.outputAt ⟨["a", "b", "c"], 0⟩) = ["a", "b", "c"] ∧
    Pool.outputAt ⟨["a", "b", "c"], 0⟩ 4 = Pool.outputAt ⟨["a", "b", "c"], 0⟩ 1 := by
  have h := c7_round_robin ["a", "b", "c"] (by decide)
  exact ⟨h.1, by simpa using h.2 1⟩

/-- C9, counterexample: `match_candidate_to_vacancy_deterministic` reads the
ambient evaluation date (`date.today()` inside `calculate_age_score`), so two
calls on the identical `(candidate, criteria)` pair straddling the
candidate's 25th birthday return different results: the claim's
date-independent determinism fails. -/
theorem c9_counterexample :
    (match_candidate_to_vacancy_deterministic c9Resume c9Vacancy ⟨2025, 6, 14⟩).overall_score = 50 ∧
    (match_candidate_to_vacancy_deterministic c9Resume c9Vacancy ⟨2025, 6, 16⟩).overall_score = 100 ∧
    match_candidate_to_vacancy_deterministic c9Resume c9Vacancy ⟨2025, 6, 14⟩ ≠
      match_candidate_to_vacancy_deterministic c9Resume c9Vacancy ⟨2025, 6, 16⟩ := by
  refine ⟨by decide, by decide, ?_⟩
  intro h
  have := congrArg MatchOutput.overall_score h
  revert this
  decide

/-- C9, amended: the scoring function is pure given the evaluation date as an
explicit input, and when the criteria set no age bound its result does not
depend on the evaluation date at all. -/
theorem c9_date_independent (r : Resume) (v : Vacancy) (d1 d2 : PyDate)
    (hmin : v.min_age = none) (hmax : v.max_age = none) :
    match_candidate_to_vacancy_deterministic r v d1 =
      match_candidate_to_vacancy_deterministic r v d2 := by
  simp [match_candidate_to_vacancy_deterministic, calculate_age_score, hmin, hmax]

/-- C9 witness: with the age bound removed the two dates agree. -/
theorem c9_witness :
    match_candidate_to_vacancy_deterministic c9Resume c9VacancyNoAge ⟨2025, 6, 14⟩ =
      match_candidate_to_vacancy_deterministic c9Resume c9VacancyNoAge ⟨2025, 6, 16⟩ :=
  c9_date_independent c9Resume c9VacancyNoAge _ _ rfl rfl

/-- C1, counterexample: the spec computes the overall score with `round`,
but the code truncates (`int`).  With weights 30/40/20/10 and subscores
50/66/66/100 the exact weighted sum is 64.6: the claim's `round` gives 65,
the code returns 64. -/
theorem c1_counterexample :
    (match_candidate_to_vacancy_deterministic c1Resume c1VacancySoft exDate).experience_score = 50 ∧
    (match_candidate_to_vacancy_deterministic c1Resume c1VacancySoft exDate).technical_skills_score = 66 ∧
    (match_candidate_to_vacancy_deterministic c1Resume c1VacancySoft exDate).soft_skills_score = 66 ∧
    (match_candidate_to_vacancy_deterministic c1Resume c1VacancySoft exDate).language_score = 100 ∧
    (match_candidate_to_vacancy_deterministic c1Resume c1VacancySoft exDate).age_score = 100 ∧
    (match_candidate_to_vacancy_deterministic c1Resume c1VacancySoft exDate).overall_score = 64 ∧
    round ((50 * 30 + 66 * 40 + 66 * 20 + 100 * 10 : ℚ) / 100) = (65 : ℤ) := by
  refine ⟨by decide, by decide, by decide, by decide, by decide, by decide, ?_⟩
  norm_num [round_eq]

/-- C1, amended: the overall score is the double-precision weighted sum
truncated toward zero (not rounded), then truncated again after the `* 0.5`
age penalty and after the `* 0.7` education penalty (age first), clamped to
`[0, 100]`; with weights 30/40/20/10, subscores 50/66/100/100 and no
age/education constraint the overall score is 71. -/
theorem c1_overall_truncation (r : Resume) (v : Vacancy) (d : PyDate) :
    (match_candidate_to_vacancy_deterministic r v d).overall_score =
      overallFromSubscores
        (match_candidate_to_vacancy_deterministic r v d).experience_score
        (match_candidate_to_vacancy_deterministic r v d).technical_skills_score
        (match_candidate_to_vacancy_deterministic r v d).soft_skills_score
        (match_candidate_to_vacancy_deterministic r v d).language_score
        (match_candidate_to_vacancy_deterministic r v d).age_score
        (match_candidate_to_vacancy_deterministic r v d).education_score v ∧
    (match_candidate_to_vacancy_deterministic c1Resume c1VacancyBase exDate).overall_score = 71 :=
  ⟨rfl, by decide⟩

/-- C10: a required technical or soft skill counts as matched iff its
normalised form (`lower().strip()`) appears verbatim among the candidate's
normalised skills — exact equality, not substring: required `"python"`
matches candidate `"Python "`, required `"Python"` does not match candidate
`"Python3"`. -/
theorem c10_skill_matching :
    (∀ (cand req opt : List String) (s : String), s ∈ req →
      (s ∉ (calculate_technical_skills_score cand req opt).2.2 ↔
        normSkill s ∈ cand.map normSkill)) ∧
    (∀ (cand req : List String) (s : String),
      s ∈ (calculate_soft_skills_score cand req).2 ↔
        (s ∈ req ∧ normSkill s ∈ cand.map normSkill)) ∧
    (calculate_technical_skills_score ["Python "] ["python"] []).2.1 = ["python"] ∧
    (calculate_technical_skills_score ["Python "] ["python"] []).1 = 100 ∧
    (calculate_technical_skills_score ["Python3"] ["Python"] []).2.2 = ["Python"] ∧
    (calculate_technical_skills_score ["Python3"] ["Python"] []).1 = 0 ∧
    (calculate_soft_skills_score ["Python "] ["python"]).2 = ["python"] ∧
    (calculate_soft_skills_score ["Python3"] ["Python"]).2 = [] := by
  refine ⟨?_, ?_, by decide, by decide, by decide, by decide, by decide, by decide⟩
  · intro cand req opt s hs
    by_cases hm : normSkill s ∈ cand.map normSkill
    · rcases List.mem_map.mp hm with ⟨x, hx, hxe⟩
      simp only [calculate_technical_skills_score, List.mem_filter, hs, hm,
        true_and, iff_true, decide_not]
      simp [List.mem_filter, hm]
    · simp only [calculate_technical_skills_score]
      simp [List.mem_filter, hs, hm]
      intro x hx hxe
      exact hm (List.mem_map.mpr ⟨x, hx, hxe⟩)
  · intro cand req s
    by_cases hreq : req = []
    · subst hreq
      simp [calculate_soft_skills_score]
    · simp [calculate_soft_skills_score, hreq, List.mem_filter]

/-- C10 witness: the normalised-equality characterisation applied to the
claim's example pair. -/
theorem c10_witness :
    "python" ∉ (calculate_technical_skills_score ["Python "] ["python"] []).2.2 :=
  (c10_skill_matching.1 ["Python "] ["python"] [] "python" (by decide)).mpr (by decide)

/-- C3: with retry ceiling 3, a 429 on attempt `k` (1-based) is retried after
a `k*10`-second delay; three consecutive 429s fail the batch after delays
10, 20, 30; a non-429 HTTP error, a network error, or non-JSON content fails
the batch immediately with no retry. -/
theorem c3_retry_backoff (outcomes : Nat → AttemptOutcome α) (p : α) (c : Nat) :
    ((∀ k, k < 3 → outcomes k = .statusError 429) →
      parse_resume_batch_with_deepseek outcomes 3 = .failure [10, 20, 30]) ∧
    (outcomes 0 = .statusError c → c ≠ 429 →
      parse_resume_batch_with_deepseek outcomes 3 = .failure []) ∧
    (outcomes 0 = .requestError →
      parse_resume_batch_with_deepseek outcomes 3 = .failure []) ∧
    (outcomes 0 = .malformed →
      parse_resume_batch_with_deepseek outcomes 3 = .failure []) ∧
    (outcomes 0 = .statusError 429 → outcomes 1 = .ok p →
      parse_resume_batch_with_deepseek outcomes 3 = .success p [10]) ∧
    (outcomes 0 = .statusError 429 → outcomes 1 = .statusError 429 →
      outcomes 2 = .ok p →
      parse_resume_batch_with_deepseek outcomes 3 = .success p [10, 20]) := by
  refine ⟨?_, ?_, ?_, ?_, ?_, ?_⟩
  · intro h
    have h0 := h 0 (by omega)
    have h1 := h 1 (by omega)
    have h2 := h 2 (by omega)
    simp [parse_resume_batch_with_deepseek, attemptLoopGo, h0, h1, h2]
  · intro h hc
    simp [parse_resume_batch_with_deepseek, attemptLoopGo, h, hc]
  · intro h
    simp [parse_resume_batch_with_deepseek, attemptLoopGo, h]
  · intro h
    simp [parse_resume_batch_with_deepseek, attemptLoopGo, h]
  · intro h0 h1
    simp [parse_resume_batch_with_deepseek, attemptLoopGo, h0, h1]
  · intro h0 h1 h2
    simp [parse_resume_batch_with_deepseek, attemptLoopGo, h0, h1, h2]

/-- C3 witness: an always-throttled batch fails after backoffs 10, 20, 30. -/
theorem c3_witness :
    parse_resume_batch_with_deepseek c3Oracle 3 = .failure [10, 20, 30] :=
  (c3_retry_backoff c3Oracle 0 0).1 (fun _ _ => rfl)

/-- C2, counterexample: with 8 items in two batches of 4 and the first batch
failing, the parse-path aggregator re-keys the surviving records with its
global counter: the record of original item 4 (key `resume5` under the
claimed original-index keying) is emitted under key 1.  Payloads here encode
their item's original index, so original-index keying would mean
`key = payload + 1` for every emitted record — and it fails. -/
theorem c2_counterexample :
    parse_resumes_with_deepseek_parallel [0, 1, 2, 3, 4, 5, 6, 7] 4 c2Oracle =
      [(1, 4), (2, 5), (3, 6), (4, 7)] ∧
    ¬ (∀ q ∈ parse_resumes_with_deepseek_parallel [0, 1, 2, 3, 4, 5, 6, 7] 4 c2Oracle,
        q.1 = q.2 + 1) := by
  constructor
  · rfl
  · decide

/-- C2, amended: for `N` input items split into batches, the aggregator's
output has at most `N` records whenever each batch outcome carries at most
one record per input item of that batch; in the matching path every emitted
record is keyed by the candidate id of an input item.  In the parse path the
keys `resume{1..K}` are consecutive counters assigned in batch order — they
equal original indices only when no earlier batch failed. -/
theorem c2_aggregation (texts : List τ) (bs : Nat)
    (outcomes : Nat → Except String (List ρ)) (cands : List (Nat × δ)) (bs2 : Nat)
    (moutcomes : Nat → Except String (Nat → Option μ)) :
    ((∀ p ∈ pyEnumerate 0 (splitIntoBatches texts bs),
        (processBatchCaught (outcomes p.1)).length ≤ p.2.length) →
      (parse_resumes_with_deepseek_parallel texts bs outcomes).length ≤ texts.length) ∧
    (∀ q ∈ match_candidates_to_vacancy_parallel cands bs2 moutcomes,
      q.1 ∈ cands.map Prod.fst) := by
  constructor
  · intro h
    unfold parse_resumes_with_deepseek_parallel
    rw [mergeResumesGo_length]
    rcases Nat.eq_zero_or_pos bs with h0 | hpos
    · subst h0
      simp [splitIntoBatches, pyEnumerate]
    · calc ((pyEnumerate 0 (splitIntoBatches texts bs)).map
            (fun p => processBatchCaught (outcomes p.1))).flatten.length
          ≤ (splitIntoBatches texts bs).flatten.length :=
            flatten_pyEnumerateMap_length_le (fun i => processBatchCaught (outcomes i)) _ 0 h
        _ = texts.length := by rw [splitIntoBatches_flatten hpos]
  · intro q hq
    unfold match_candidates_to_vacancy_parallel at hq
    rw [List.mem_flatten] at hq
    obtain ⟨sub, hsub, hqsub⟩ := hq
    rw [List.mem_map] at hsub
    obtain ⟨pr, hpr, rfl⟩ := hsub
    cases hout : moutcomes pr.1 with
    | error e =>
      rw [hout] at hqsub
      simp only [processMatchBatchCaught] at hqsub
      cases hqsub
    | ok resp =>
      rw [hout] at hqsub
      simp only [processMatchBatchCaught, match_candidate_to_vacancy_batch,
        List.mem_filterMap] at hqsub
      obtain ⟨en, hen, hmap⟩ := hqsub
      cases hr : resp en.1 with
      | none => rw [hr] at hmap; cases hmap
      | some r =>
        rw [hr] at hmap
        have hq1 : q.1 = en.2.1 := by
          cases hmap
          rfl
        have hb : pr.2 ∈ splitIntoBatches cands bs2 := snd_mem_of_mem_pyEnumerate hpr
        have hin : en.2 ∈ pr.2 := snd_mem_of_mem_pyEnumerate hen
        have hc : en.2 ∈ cands := by
          rcases Nat.eq_zero_or_pos bs2 with h0 | hpos
          · subst h0
            simp [splitIntoBatches] at hb
          · rw [← splitIntoBatches_flatten hpos cands]
            exact List.mem_flatten.mpr ⟨pr.2, hb, hin⟩
        rw [hq1]
        exact List.mem_map_of_mem Prod.fst hc

/-- C2 witness: the bound applied to 8 items, two batches, first batch
failed. -/
theorem c2_witness :
    (parse_resumes_with_deepseek_parallel [0, 1, 2, 3, 4, 5, 6, 7] 4 c2Oracle).length ≤ 8 :=
  (c2_aggregation [0, 1, 2, 3, 4, 5, 6, 7] 4 c2Oracle ([] : List (Nat × Unit)) 4
    (fun _ => (Except.error "x" : Except String (Nat → Option Unit)))).1 (by decide)

/-- All-empty merge: a run in which every batch contributed `{}`. -/
lemma mergeResumesGo_replicate_nil :
    ∀ (n c : Nat), mergeResumesGo (List.replicate n ([] : List ρ)) c = [] := by
  intro n
  induction n with
  | zero => intro c; rfl
  | succ n ih => intro c; simp [mergeResumesGo, pyEnumerate, ih]

/-- C6, counterexample: the claim also covers
`parse_resumes_with_deepseek_extended`, but for input lists of at most 4
items that function calls `parse_resume_batch_with_deepseek` directly with
no catch, so a failed batch (here: malformed content on the first attempt)
reaches the caller as a raised error, not as a reduced collection. -/
theorem c6_counterexample :
    (parse_resumes_with_deepseek_extended [0, 1]
      (fun _ => (AttemptOutcome.malformed : AttemptOutcome (List Nat)))
      (fun _ => (Except.ok [] : Except String (List Nat)))).isOk = false ∧
    parse_resume_batch_with_deepseek
      (fun _ => (AttemptOutcome.malformed : AttemptOutcome (List Nat))) 3 =
      .failure [] := by
  constructor
  · rfl
  · rfl

/-- C6, amended: in the parallel entry points an individual batch failure
never aborts sibling batches or the overall call — every record of a
succeeded batch appears in the final aggregate whatever the other batches
did, the all-batches-failed run still returns an ordinary (empty) collection
rather than raising, and a succeeded matching batch's records always reach
the caller.  `parse_resumes_with_deepseek_extended`, however, bypasses the
aggregator for lists of at most 4 items: there a batch failure propagates to
the caller as a raised error, while with more than 4 items it delegates to
the parallel path and never raises. -/
theorem c6_failure_isolation (texts : List τ) (bs : Nat)
    (outcomes : Nat → Except String (List ρ)) (cands : List (Nat × δ)) (bs2 : Nat)
    (moutcomes : Nat → Except String (Nat → Option μ)) :
    (∀ p ∈ pyEnumerate 0 (splitIntoBatches texts bs), ∀ rs, outcomes p.1 = .ok rs →
      ∀ r ∈ rs, r ∈ (parse_resumes_with_deepseek_parallel texts bs outcomes).map Prod.snd) ∧
    (∀ outcomesBad : Nat → Except String (List ρ), (∀ i, ∃ e, outcomesBad i = .error e) →
      parse_resumes_with_deepseek_parallel texts bs outcomesBad = []) ∧
    (∀ p ∈ pyEnumerate 0 (splitIntoBatches cands bs2), ∀ resp, moutcomes p.1 = .ok resp →
      ∀ q ∈ match_candidate_to_vacancy_batch p.2 resp,
        q ∈ match_candidates_to_vacancy_parallel cands bs2 moutcomes) ∧
    (∀ attempts : Nat → AttemptOutcome (List ρ), 4 < texts.length →
      parse_resumes_with_deepseek_extended texts attempts outcomes =
        .ok (parse_resumes_with_deepseek_parallel texts 4 outcomes)) ∧
    (∀ (attempts : Nat → AttemptOutcome (List ρ)) (ds : List Nat),
      texts.length ≤ 4 → parse_resume_batch_with_deepseek attempts 3 = .failure ds →
      (parse_resumes_with_deepseek_extended texts attempts outcomes).isOk = false) ∧
    (∀ (attempts : Nat → AttemptOutcome (List ρ)) (rs : List ρ) (ds : List Nat),
      texts.length ≤ 4 → parse_resume_batch_with_deepseek attempts 3 = .success rs ds →
      parse_resumes_with_deepseek_extended texts attempts outcomes =
        .ok (pyEnumerate 1 rs)) := by
  refine ⟨?_, ?_, ?_, ?_, ?_, ?_⟩
  · intro p hp rs hrs r hr
    unfold parse_resumes_with_deepseek_parallel
    rw [mergeResumesGo_map_snd, List.mem_flatten]
    refine ⟨processBatchCaught (outcomes p.1), List.mem_map_of_mem _ hp, ?_⟩
    rw [hrs]
    exact hr
  · intro outcomesBad hbad
    unfold parse_resumes_with_deepseek_parallel
    have hrepl : (pyEnumerate 0 (splitIntoBatches texts bs)).map
        (fun p => processBatchCaught (outcomesBad p.1)) =
        List.replicate (pyEnumerate 0 (splitIntoBatches texts bs)).length [] := by
      rw [List.eq_replicate_iff]
      refine ⟨by simp, ?_⟩
      intro b hb
      rw [List.mem_map] at hb
      obtain ⟨pp, _, rfl⟩ := hb
      obtain ⟨e, he⟩ := hbad pp.1
      rw [he]
      rfl
    show mergeResumesGo ((pyEnumerate 0 (splitIntoBatches texts bs)).map
      (fun p => processBatchCaught (outcomesBad p.1))) 1 = []
    rw [hrepl, mergeResumesGo_replicate_nil]
  · intro p hp resp hresp q hq
    unfold match_candidates_to_vacancy_parallel
    rw [List.mem_flatten]
    refine ⟨processMatchBatchCaught p.2 (moutcomes p.1), List.mem_map_of_mem _ hp, ?_⟩
    rw [hresp]
    exact hq
  · intro attempts hlen
    unfold parse_resumes_with_deepseek_extended
    rw [if_neg (by omega)]
  · intro attempts ds hlen hbatch
    unfold parse_resumes_with_deepseek_extended
    rw [if_pos hlen, hbatch]
    rfl
  · intro attempts rs ds hlen hbatch
    unfold parse_resumes_with_deepseek_extended
    rw [if_pos hlen, hbatch]

/-- C6 witness: with the first of two batches failing, a record of the
second batch still reaches the caller. -/
theorem c6_witness :
    50 ∈ (parse_resumes_with_deepseek_parallel [0, 1, 2, 3, 4, 5, 6, 7] 4 c6Oracle).map Prod.snd :=
  (c6_failure_isolation [0, 1, 2, 3, 4, 5, 6, 7] 4 c6Oracle ([] : List (Nat × Unit)) 4
      (fun _ => (Except.error "x" : Except String (Nat → Option Unit)))).1
    (1, [4, 5, 6, 7]) (by decide) [40, 50, 60, 70] rfl 50 (by decide)

/-- Replacing a non-`p` element by a `p` element raises `countP` by one. -/
lemma countP_set_incr (p : JobStatus → Bool) :
    ∀ (l : List JobStatus) (j : Nat) (a b : JobStatus), l.get? j = some a →
      p a = false → p b = true → (l.set j b).countP p = l.countP p + 1 := by
  intro l
  induction l with
  | nil => intro j a b h _ _; cases h
  | cons x t ih =>
    intro j a b h ha hb
    cases j with
    | zero =>
      cases h
      simp [List.countP_cons, ha, hb]
    | succ j =>
      simp only [List.get?_cons_succ] at h
      simp [List.countP_cons, ih j a b h ha hb]
      omega

/-- Replacing a `p` element by a non-`p` element lowers `countP` by one. -/
lemma countP_set_decr (p : JobStatus → Bool) :
    ∀ (l : List JobStatus) (j : Nat) (a b : JobStatus), l.get? j = some a →
      p a = true → p b = false → l.countP p = (l.set j b).countP p + 1 := by
  intro l
  induction l with
  | nil => intro j a b h _ _; cases h
  | cons x t ih =>
    intro j a b h ha hb
    cases j with
    | zero =>
      cases h
      simp [List.countP_cons, ha, hb]
    | succ j =>
      simp only [List.get?_cons_succ] at h
      simp [List.countP_cons, ih j a b h ha hb]
      omega

/-- The semaphore invariant: in-flight batches plus free permits always equal
the configured concurrency limit. -/
lemma dreachable_invariant {n maxC : Nat} {s : DispatcherState}
    (h : DReachable (initState n maxC) s) : dispatchedCount s + s.sem = maxC := by
  induction h with
  | refl =>
    have hz : (List.replicate n JobStatus.queued).countP
        (fun st => st = JobStatus.dispatched) = 0 := by
      rw [List.countP_eq_zero]
      intro a ha
      rw [List.eq_of_mem_replicate ha]
      decide
    simp [initState, dispatchedCount, hz]
  | step hreach hstep ih =>
    cases hstep with
    | start j hj hs =>
      have hc := countP_set_incr (fun st => st = .dispatched) _ j .queued .dispatched hj
        (by decide) (by decide)
      dsimp only [dispatchedCount] at ih ⊢
      omega
    | finish j hj =>
      have hc := countP_set_decr (fun st => st = .dispatched) _ j .dispatched .done hj
        (by decide) (by decide)
      dsimp only [dispatchedCount] at ih ⊢
      omega

/-- C8: from the initial state (any number of pending batches, `max_concurrent`
free permits), every reachable interleaving of acquisitions and releases keeps
the number of simultaneously dispatched (in-flight) batches at or below
`max_concurrent`; queued batches can only start when a permit is free. -/
theorem c8_concurrency_bound (n maxC : Nat) (s : DispatcherState)
    (h : DReachable (initState n maxC) s) : dispatchedCount s ≤ maxC := by
  have := dreachable_invariant h
  omega

/-- C8 witness: five pending batches under limit 3. -/
theorem c8_witness : dispatchedCount (initState 5 3) ≤ 3 :=
  c8_concurrency_bound 5 3 (initState 5 3) DReachable.refl

/-- C1 witness: the truncation formula applied at the example pair. -/
theorem c1_witness :
    (match_candidate_to_vacancy_deterministic c1Resume c1VacancyBase exDate).overall_score =
      overallFromSubscores
        (match_candidate_to_vacancy_deterministic c1Resume c1VacancyBase exDate).experience_score
        (match_candidate_to_vacancy_deterministic c1Resume c1VacancyBase exDate).technical_skills_score
        (match_candidate_to_vacancy_deterministic c1Resume c1VacancyBase exDate).soft_skills_score
        (match_candidate_to_vacancy_deterministic c1Resume c1VacancyBase exDate).language_score
        (match_candidate_to_vacancy_deterministic c1Resume c1VacancyBase exDate).age_score
        (match_candidate_to_vacancy_deterministic c1Resume c1VacancyBase exDate).education_score
        c1VacancyBase :=
  (c1_overall_truncation c1Resume c1VacancyBase exDate).1

/-- C5 witness: one valid key and no proxies starts up successfully. -/
theorem c5_witness : (moduleInit [some "k"] "").isOk = true :=
  (c5_startup_guard [some "k"] "").mpr (by decide)

end RecruitmentSystem
